import Mathlib

/-!
Verification of the filtering-and-aggregation data engine of the Rwanda
merchandise-trade dashboard (`rwanda_trade_dashboard.py`) and of the record
generator (`create_rwanda_trade_data.py`).

The pandas DataFrame is embedded as a `List TradeRecord`; boolean-mask
filtering becomes `List.filter`, group-by/sum becomes an explicit fold over
the deduplicated (and, as pandas `groupby` does, key-sorted) key list, and
monetary values are rationals.  Python float division is embedded as
`pydiv : ℚ → ℚ → Option ℚ`, `none` marking a division whose denominator is
zero (the NaN / ZeroDivisionError case that only an explicit zero-check in
the source can rule out).
-/

/-- One row of `rwanda_trade_data.csv` as consumed by the dashboard.  The
`Date` column (first day of `(Year, Month)`, used only for the header
display) is omitted. -/
structure TradeRecord where
  Year : Int
  Month : Nat
  Quarter : String
  Flow : String
  Partner_Country : String
  Partner_Continent : String
  Regional_Block : String
  HS_Code : String
  HS_Description : String
  Trade_Value_USD : ℚ
  Quantity_KG : ℚ
  Month_Name : String
deriving DecidableEq, Repr

/-- `filter_data(df, year, quarter, month, flow, hs_codes)` from
`rwanda_trade_dashboard.py` (lines 205-225): keep the rows of the selected
year, then apply each optional filter unless its selection is the sentinel
`'All'` (for the HS-code multiselect: unless `'All'` is among the selected
codes). -/
def filter_data (df : List TradeRecord) (year : Int) (quarter month flow : String)
    (hs_codes : List String) : List TradeRecord :=
  let filtered := df.filter (fun r => r.Year == year)
  let filtered := if quarter ≠ "All" then filtered.filter (fun r => r.Quarter == quarter)
    else filtered
  let filtered := if month ≠ "All" then filtered.filter (fun r => r.Month_Name == month)
    else filtered
  let filtered := if flow ≠ "All" then filtered.filter (fun r => r.Flow == flow)
    else filtered
  if "All" ∉ hs_codes then filtered.filter (fun r => hs_codes.contains r.HS_Code)
  else filtered

/-- The row predicate that `filter_data` implements: the year matches, and
every optional dimension whose selection is not the `'All'` sentinel
matches. -/
def matchesSpec (year : Int) (quarter month flow : String) (hs_codes : List String)
    (r : TradeRecord) : Bool :=
  (r.Year == year) && (quarter == "All" || r.Quarter == quarter)
    && (month == "All" || r.Month_Name == month)
    && (flow == "All" || r.Flow == flow)
    && (hs_codes.contains "All" || hs_codes.contains r.HS_Code)

lemma filter_data_eq_filter (df : List TradeRecord) (year : Int)
    (quarter month flow : String) (hs_codes : List String) :
    filter_data df year quarter month flow hs_codes =
      df.filter (matchesSpec year quarter month flow hs_codes) := by
  simp only [filter_data]
  split <;> split <;> split <;> split <;>
  · try simp only [List.filter_filter]
    refine List.filter_congr fun r _ => ?_
    rw [Bool.eq_iff_iff]
    simp [matchesSpec]
    tauto

/-- C1: `filter_data` returns exactly the rows of the table whose `Year`
equals the selected year and whose `Quarter`, `Month_Name`, `Flow` and
`HS_Code` match each selected optional field, the sentinel `'All'` (or
`'All'` among the selected HS codes) restricting nothing; the result is a
single order-preserving filter of the input table, so rows keep their
relative order. -/
theorem filter_data_exact_rows (df : List TradeRecord) (year : Int)
    (quarter month flow : String) (hs_codes : List String) :
    filter_data df year quarter month flow hs_codes =
      df.filter (fun r =>
        (r.Year == year) && (quarter == "All" || r.Quarter == quarter)
          && (month == "All" || r.Month_Name == month)
          && (flow == "All" || r.Flow == flow)
          && (hs_codes.contains "All" || hs_codes.contains r.HS_Code)) :=
  filter_data_eq_filter df year quarter month flow hs_codes

/-- Pandas `round(x, 2)`: round to two decimal places. -/
def round2 (q : ℚ) : ℚ := (round (q * 100) : ℤ) / 100

/-- Division as it occurs in the dashboard's share and growth formulas:
`none` marks a division whose denominator is zero — the case Python only
avoids when the source guards it with an explicit zero-check. -/
def pydiv (a b : ℚ) : Option ℚ := if b = 0 then none else some (a / b)

/-- Sum of the `Trade_Value_USD` column, i.e. `rows['Trade_Value_USD'].sum()`. -/
def total_value (rows : List TradeRecord) : ℚ :=
  (rows.map (·.Trade_Value_USD)).sum

/-- `subset.groupby(key)['Trade_Value_USD'-like metric].sum()`: one entry per
distinct key value of `subset`, keys in sorted order (pandas `groupby` sorts
group keys), each paired with the metric summed over the rows carrying that
key. -/
def aggregate (subset : List TradeRecord) (key : TradeRecord → String)
    (metric : TradeRecord → ℚ) : List (String × ℚ) :=
  (((subset.map key).dedup).insertionSort (· ≤ ·)).map
    (fun k => (k, ((subset.filter (fun r => key r == k)).map metric).sum))

/-- Descending order on the summed values of two aggregated groups. -/
def valueDesc (a b : String × ℚ) : Prop := b.2 ≤ a.2

instance : DecidableRel valueDesc := fun a b => inferInstanceAs (Decidable (b.2 ≤ a.2))

instance : IsTotal (String × ℚ) valueDesc := ⟨fun a b => le_total b.2 a.2⟩

instance : IsTrans (String × ℚ) valueDesc := ⟨fun _ _ _ h1 h2 => le_trans h2 h1⟩

/-- `series.nlargest(n)`: the `n` largest entries by value, in descending
order of value (stable sort, mirroring pandas `keep='first'`). -/
def nlargest (agg : List (String × ℚ)) (n : Nat) : List (String × ℚ) :=
  (agg.insertionSort valueDesc).take n

/-- The `top_exports` / `top_imports` / `top_reexports` computation
(dashboard lines 369-372, 397-400, 425-428): take the `n` largest groups,
attach 1-based ranks, and attach `Share_%` as each value divided by the sum
of the *returned* values, times 100, rounded to 2 decimals.  Entries are
`(group key, summed value, rank, share percent)`. -/
def top_n_ranked (agg : List (String × ℚ)) (n : Nat) :
    List (String × ℚ × Nat × ℚ) :=
  let top := nlargest agg n
  let total := (top.map (·.2)).sum
  (top.zip ((List.range top.length).map (· + 1))).map
    (fun p => (p.1.1, p.1.2, p.2, round2 (p.1.2 / total * 100)))

example : round2 (300 / 400 * 100) = 75 := by norm_num [round2, round_eq]
example : nlargest [("Kenya", (300 : ℚ)), ("Uganda", 100)] 1 = [("Kenya", 300)] := by decide
example : top_n_ranked [("Kenya", (300 : ℚ)), ("Uganda", 100)] 1 =
    [("Kenya", 300, 1, 100)] := by
  norm_num [top_n_ranked, nlargest, valueDesc, round2, round_eq, List.insertionSort,
    List.orderedInsert, List.range, List.range.loop, List.zip, List.zipWith]
example : top_n_ranked [] 5 = [] := by decide

lemma sum_map_ite_mem (S : List String) (hnd : S.Nodup) (c : String) (hc : c ∈ S)
    (v : ℚ) : (S.map (fun k => if c = k then v else 0)).sum = v := by
  induction S with
  | nil => cases hc
  | cons a t ih =>
      rcases List.mem_cons.mp hc with h | h
      · subst h
        have hnotin : c ∉ t := (List.nodup_cons.mp hnd).1
        have : (t.map (fun k => if c = k then v else 0)).sum = 0 := by
          apply List.sum_eq_zero
          intro x hx
          rcases List.mem_map.mp hx with ⟨k, hk, rfl⟩
          have hck : ¬c = k := fun h' => hnotin (h' ▸ hk)
          simp [hck]
        simp [this]
      · have hne : ¬c = a := fun h' => (List.nodup_cons.mp hnd).1 (h' ▸ h)
        simp [hne, ih (List.nodup_cons.mp hnd).2 h]

lemma sum_groups (l : List TradeRecord) (key : TradeRecord → String)
    (metric : TradeRecord → ℚ) (S : List String) (hnd : S.Nodup)
    (hcov : ∀ r ∈ l, key r ∈ S) :
    (S.map (fun k => ((l.filter (fun r => key r == k)).map metric).sum)).sum
      = (l.map metric).sum := by
  induction l with
  | nil =>
      simp only [List.filter_nil, List.map_nil, List.sum_nil]
      exact List.sum_eq_zero fun x hx => by
        rcases List.mem_map.mp hx with ⟨k, _, rfl⟩; rfl
  | cons a t ih =>
      have hstep : ∀ k : String,
          (((a :: t).filter (fun r => key r == k)).map metric).sum
            = (if key a = k then metric a else 0)
              + ((t.filter (fun r => key r == k)).map metric).sum := by
        intro k
        by_cases h : key a = k <;> simp [List.filter_cons, h]
      calc (S.map (fun k => (((a :: t).filter (fun r => key r == k)).map metric).sum)).sum
          = (S.map (fun k => (if key a = k then metric a else 0)
              + ((t.filter (fun r => key r == k)).map metric).sum)).sum := by
            exact congrArg List.sum (List.map_congr_left fun k _ => hstep k)
        _ = (S.map (fun k => if key a = k then metric a else 0)).sum
              + (S.map (fun k => ((t.filter (fun r => key r == k)).map metric).sum)).sum :=
            List.sum_map_add
        _ = metric a + (t.map metric).sum := by
            rw [sum_map_ite_mem S hnd (key a) (hcov a (List.mem_cons_self a t)) (metric a),
              ih fun r hr => hcov r (List.mem_cons_of_mem a hr)]
        _ = ((a :: t).map metric).sum := by simp

lemma aggregate_keys (subset : List TradeRecord) (key : TradeRecord → String)
    (metric : TradeRecord → ℚ) :
    (aggregate subset key metric).map Prod.fst
      = ((subset.map key).dedup).insertionSort (· ≤ ·) := by
  simp [aggregate, List.map_map, Function.comp_def]

/-- C5: the group-by/sum aggregation has one entry per distinct key value of
the subset and no others; each group's sum is the metric summed over exactly
the rows carrying that key, and the group totals sum to the subset total. -/
theorem aggregate_groupby_spec (subset : List TradeRecord) (key : TradeRecord → String)
    (metric : TradeRecord → ℚ) :
    ((aggregate subset key metric).map Prod.fst).Nodup
    ∧ (∀ k, k ∈ (aggregate subset key metric).map Prod.fst ↔ k ∈ subset.map key)
    ∧ (∀ k v, (k, v) ∈ aggregate subset key metric →
        v = ((subset.filter (fun r => key r == k)).map metric).sum)
    ∧ ((aggregate subset key metric).map Prod.snd).sum = (subset.map metric).sum := by
  refine ⟨?_, ?_, ?_, ?_⟩
  · rw [aggregate_keys]
    exact (List.perm_insertionSort _ _).nodup_iff.mpr ((subset.map key).nodup_dedup)
  · intro k
    rw [aggregate_keys]
    rw [(List.perm_insertionSort _ _).mem_iff, List.mem_dedup]
  · intro k v hkv
    rcases List.mem_map.mp hkv with ⟨k', _, hk'⟩
    obtain ⟨rfl, rfl⟩ : k' = k ∧ ((subset.filter (fun r => key r == k')).map metric).sum = v :=
      ⟨congrArg Prod.fst hk', congrArg Prod.snd hk'⟩
    rfl
  · have hmap : (aggregate subset key metric).map Prod.snd
        = (((subset.map key).dedup).insertionSort (· ≤ ·)).map
            (fun k => ((subset.filter (fun r => key r == k)).map metric).sum) := by
      simp [aggregate, List.map_map, Function.comp_def]
    rw [hmap]
    apply sum_groups
    · exact (List.perm_insertionSort _ _).nodup_iff.mpr ((subset.map key).nodup_dedup)
    · intro r hr
      rw [(List.perm_insertionSort _ _).mem_iff, List.mem_dedup]
      exact List.mem_map_of_mem key hr

lemma nlargest_length (agg : List (String × ℚ)) (n : Nat) :
    (nlargest agg n).length = min n agg.length := by
  simp [nlargest, List.length_take, List.length_insertionSort]

lemma top_n_ranked_unfold (agg : List (String × ℚ)) (n : Nat) :
    top_n_ranked agg n =
      ((nlargest agg n).zip ((List.range (nlargest agg n).length).map (· + 1))).map
        (fun p => (p.1.1, p.1.2, p.2,
          round2 (p.1.2 / ((nlargest agg n).map (·.2)).sum * 100))) := rfl

lemma top_n_ranked_mem (agg : List (String × ℚ)) (n : Nat) (e : String × ℚ × Nat × ℚ)
    (he : e ∈ top_n_ranked agg n) :
    ∃ p ∈ (nlargest agg n).zip ((List.range (nlargest agg n).length).map (· + 1)),
      e = (p.1.1, p.1.2, p.2,
        round2 (p.1.2 / ((nlargest agg n).map (·.2)).sum * 100)) := by
  rw [top_n_ranked_unfold] at he
  rcases List.mem_map.mp he with ⟨p, hp, rfl⟩
  exact ⟨p, hp, rfl⟩

lemma zip_ranks_fst (agg : List (String × ℚ)) (n : Nat) :
    ((nlargest agg n).zip ((List.range (nlargest agg n).length).map (· + 1))).map Prod.fst
      = nlargest agg n := by
  apply List.map_fst_zip
  simp

/-- C6: `top_n_ranked` returns the `n` groups with the largest summed values
in descending order of value, with 1-based ranks `1..count` where `count`
is `min n (number of groups)`; every returned value dominates every value
left out of the cut, every returned `(group, value)` pair comes from the
aggregated mapping, and an empty mapping yields an empty sequence. -/
theorem top_n_ranked_spec (agg : List (String × ℚ)) (n : Nat) :
    (top_n_ranked agg n).length = min n agg.length
    ∧ ((top_n_ranked agg n).map (fun e => e.2.1)).Sorted (fun a b => b ≤ a)
    ∧ (top_n_ranked agg n).map (fun e => e.2.2.1)
        = (List.range (min n agg.length)).map (· + 1)
    ∧ (∀ e ∈ top_n_ranked agg n, ∀ x ∈ (agg.insertionSort valueDesc).drop n, x.2 ≤ e.2.1)
    ∧ (∀ e ∈ top_n_ranked agg n, (e.1, e.2.1) ∈ agg)
    ∧ (agg = [] → top_n_ranked agg n = []) := by
  have hlen : ((List.range (nlargest agg n).length).map (· + 1)).length
      = (nlargest agg n).length := by simp
  have hfst : ((nlargest agg n).zip ((List.range (nlargest agg n).length).map (· + 1))).map
      Prod.fst = nlargest agg n := zip_ranks_fst agg n
  have hsorted : (agg.insertionSort valueDesc).Sorted valueDesc :=
    List.sorted_insertionSort valueDesc agg
  have htake_sorted : (nlargest agg n).Sorted valueDesc :=
    hsorted.sublist (List.take_sublist n _)
  refine ⟨?_, ?_, ?_, ?_, ?_, ?_⟩
  · rw [top_n_ranked_unfold]
    simp [List.length_zip, nlargest_length]
  · have hvals : (top_n_ranked agg n).map (fun e => e.2.1) = (nlargest agg n).map (·.2) := by
      rw [top_n_ranked_unfold, List.map_map]
      have : ((fun e : String × ℚ × Nat × ℚ => e.2.1) ∘
          (fun p : (String × ℚ) × Nat => (p.1.1, p.1.2, p.2,
            round2 (p.1.2 / ((nlargest agg n).map (·.2)).sum * 100))))
          = (fun p : (String × ℚ) × Nat => p.1.2) := rfl
      rw [this]
      calc ((nlargest agg n).zip ((List.range (nlargest agg n).length).map (· + 1))).map
            (fun p => p.1.2)
          = (((nlargest agg n).zip
              ((List.range (nlargest agg n).length).map (· + 1))).map Prod.fst).map (·.2) := by
            rw [List.map_map]; rfl
        _ = (nlargest agg n).map (·.2) := by rw [hfst]
    rw [hvals]
    exact List.pairwise_map.mpr (htake_sorted.imp fun h => h)
  · rw [top_n_ranked_unfold, List.map_map]
    have : ((fun e : String × ℚ × Nat × ℚ => e.2.2.1) ∘
        (fun p : (String × ℚ) × Nat => (p.1.1, p.1.2, p.2,
          round2 (p.1.2 / ((nlargest agg n).map (·.2)).sum * 100))))
        = (fun p : (String × ℚ) × Nat => p.2) := rfl
    rw [this]
    have hsnd : ((nlargest agg n).zip ((List.range (nlargest agg n).length).map (· + 1))).map
        Prod.snd = (List.range (nlargest agg n).length).map (· + 1) := by
      apply List.map_snd_zip
      simp
    rw [hsnd, nlargest_length]
  · intro e he x hx
    rcases top_n_ranked_mem agg n e he with ⟨p, hp, rfl⟩
    have hp1 : p.1 ∈ nlargest agg n := by
      have := List.mem_map_of_mem Prod.fst hp
      rwa [hfst] at this
    have := List.take_append_drop n (agg.insertionSort valueDesc)
    have hpair : ∀ a ∈ List.take n (agg.insertionSort valueDesc),
        ∀ b ∈ List.drop n (agg.insertionSort valueDesc), valueDesc a b := by
      have hs := hsorted
      rw [← this] at hs
      exact fun a ha b hb => (List.pairwise_append.mp hs).2.2 a ha b hb
    exact hpair p.1 hp1 x hx
  · intro e he
    rcases top_n_ranked_mem agg n e he with ⟨p, hp, rfl⟩
    have hp1 : p.1 ∈ nlargest agg n := by
      have := List.mem_map_of_mem Prod.fst hp
      rwa [hfst] at this
    have : p.1 ∈ agg.insertionSort valueDesc := (List.take_sublist n _).mem hp1
    exact (List.perm_insertionSort valueDesc agg).mem_iff.mp this
  · intro h
    subst h
    simp [top_n_ranked, nlargest]

/-- The share formula as the specification states it: a group's summed value
against the total over ALL groups of the aggregated mapping (not just the
returned top-n), times 100, rounded to 2 decimals. -/
def share_percent_spec (agg : List (String × ℚ)) (v : ℚ) : ℚ :=
  round2 (v / (agg.map (·.2)).sum * 100)

/-- C2 counterexample: on the aggregated mapping `Kenya ↦ 300, Uganda ↦ 100`
with `n = 1`, the code annotates Kenya with share 100 (it divides by the sum
of the returned top-1 values, 300), while the claimed formula — against the
total over all groups, 400 — gives 75. -/
theorem share_percent_total_counterexample :
    (top_n_ranked [("Kenya", 300), ("Uganda", 100)] 1).map (fun e => e.2.2.2) = [100]
    ∧ share_percent_spec [("Kenya", 300), ("Uganda", 100)] 300 = 75
    ∧ (100 : ℚ) ≠ 75 := by
  refine ⟨?_, ?_, by norm_num⟩
  · norm_num [top_n_ranked, nlargest, valueDesc, round2, round_eq, List.insertionSort,
      List.orderedInsert, List.range, List.range.loop, List.zip, List.zipWith]
  · norm_num [share_percent_spec, round2, round_eq]

/-- C2 (amended): each returned top-n group's `share_percent` equals its
summed value divided by the total over the RETURNED top-n groups, times 100,
rounded to 2 decimals; that denominator coincides with the total over all
groups whenever the mapping has at most `n` groups, and the unrounded shares
of the returned groups sum to exactly 100 whenever their total is nonzero. -/
theorem share_percent_topn_total (agg : List (String × ℚ)) (n : Nat) :
    (∀ e ∈ top_n_ranked agg n,
        e.2.2.2 = round2 (e.2.1 / ((nlargest agg n).map (·.2)).sum * 100))
    ∧ (agg.length ≤ n → ((nlargest agg n).map (·.2)).sum = (agg.map (·.2)).sum)
    ∧ (((nlargest agg n).map (·.2)).sum ≠ 0 →
        ((nlargest agg n).map
            (fun e => e.2 / ((nlargest agg n).map (·.2)).sum * 100)).sum = 100) := by
  refine ⟨?_, ?_, ?_⟩
  · intro e he
    rcases top_n_ranked_mem agg n e he with ⟨p, _, rfl⟩
    rfl
  · intro hle
    have : nlargest agg n = agg.insertionSort valueDesc := by
      apply List.take_of_length_le
      rw [List.length_insertionSort]
      exact hle
    rw [this]
    exact ((List.perm_insertionSort valueDesc agg).map (·.2)).sum_eq
  · intro hne
    set T := ((nlargest agg n).map (·.2)).sum with hT
    have hstep : ((nlargest agg n).map (fun e => e.2 / T * 100)).sum
        = ((nlargest agg n).map (fun e => e.2 * (100 / T))).sum := by
      apply congrArg List.sum
      apply List.map_congr_left
      intro e _
      field_simp
    rw [hstep]
    have hmul : ((nlargest agg n).map (fun e => e.2 * (100 / T))).sum
        = (((nlargest agg n).map (·.2)).map (fun v => v * (100 / T))).sum := by
      rw [List.map_map]; rfl
    rw [hmul]
    have : (((nlargest agg n).map (·.2)).map (fun v => v * (100 / T))).sum
        = ((nlargest agg n).map (·.2)).sum * (100 / T) := by
      simpa using List.sum_map_mul_right ((nlargest agg n).map (·.2)) id (100 / T)
    rw [this, ← hT]
    field_simp

/-- Closed instance of the `share_percent_topn_total` hypotheses: with two
groups and `n = 2` every group is returned, so the top-n denominator equals
the all-groups total, and the unrounded shares sum to 100. -/
theorem share_percent_topn_total_witness :
    ((nlargest [("Kenya", 300), ("Uganda", 100)] 2).map (·.2)).sum
        = (([("Kenya", (300 : ℚ)), ("Uganda", 100)]).map (·.2)).sum
    ∧ ((nlargest [("Kenya", 300), ("Uganda", 100)] 2).map
          (fun e => e.2 / ((nlargest [("Kenya", 300), ("Uganda", 100)] 2).map (·.2)).sum
            * 100)).sum = 100 :=
  ⟨(share_percent_topn_total [("Kenya", 300), ("Uganda", 100)] 2).2.1 (by norm_num),
   (share_percent_topn_total [("Kenya", 300), ("Uganda", 100)] 2).2.2
     (by norm_num [nlargest, valueDesc, List.insertionSort, List.orderedInsert])⟩

/-- `filtered_df[filtered_df['Flow'] == 'Export']['Trade_Value_USD'].sum()`
(dashboard line 236). -/
def total_exports (rows : List TradeRecord) : ℚ :=
  total_value (rows.filter (fun r => r.Flow == "Export"))

/-- Dashboard line 237. -/
def total_imports (rows : List TradeRecord) : ℚ :=
  total_value (rows.filter (fun r => r.Flow == "Import"))

/-- Dashboard line 238. -/
def total_reexports (rows : List TradeRecord) : ℚ :=
  total_value (rows.filter (fun r => r.Flow == "Re-export"))

/-- The KPI-card "% of total" figure (dashboard lines 270, 279, 290):
`part / total_trade * 100`, written in the source with NO zero-check on
`total_trade`. -/
def kpi_percent_of_total (part total : ℚ) : Option ℚ :=
  (pydiv part total).map (· * 100)

/-- The year-over-year growth computation (dashboard lines 241-251): if the
prior year appears in the table's `Year` column, filter both years with the
same selections and compare the totals, guarding the division by
`prev_total > 0`; otherwise report 0. -/
def growth_rate (df : List TradeRecord) (year : Int) (quarter month flow : String)
    (hs_codes : List String) : Option ℚ :=
  let total_trade := total_value (filter_data df year quarter month flow hs_codes)
  if (year - 1) ∈ df.map (·.Year) then
    let prev_total := total_value (filter_data df (year - 1) quarter month flow hs_codes)
    if prev_total > 0 then (pydiv (total_trade - prev_total) prev_total).map (· * 100)
    else some 0
  else some 0

/-- The EAC-share figure (dashboard lines 565-566): EAC trade over total
trade, guarded by `total_trade > 0`. -/
def eac_share (rows : List TradeRecord) : Option ℚ :=
  let total_trade := total_value rows
  if total_trade > 0 then
    (pydiv (total_value (rows.filter (fun r => r.Regional_Block == "EAC")))
      total_trade).map (· * 100)
  else some 0

lemma total_value_nonneg (rows : List TradeRecord)
    (h : ∀ r ∈ rows, 0 ≤ r.Trade_Value_USD) : 0 ≤ total_value rows := by
  apply List.sum_nonneg
  intro x hx
  rcases List.mem_map.mp hx with ⟨r, hr, rfl⟩
  exact h r hr

lemma mem_of_mem_filter_data (df : List TradeRecord) (year : Int)
    (quarter month flow : String) (hs_codes : List String) (r : TradeRecord)
    (hr : r ∈ filter_data df year quarter month flow hs_codes) :
    r ∈ df ∧ r.Year = year := by
  rw [filter_data_eq_filter] at hr
  have := List.mem_filter.mp hr
  refine ⟨this.1, ?_⟩
  have hb := this.2
  simp only [matchesSpec, Bool.and_eq_true, beq_iff_eq] at hb
  exact hb.1.1.1.1

/-- C4: the year-over-year growth is exactly 0 when the prior year is absent
from the table or the prior-year filtered total is zero; otherwise it equals
`(current_total - prior_total) / prior_total * 100`, both totals computed by
the same filter-and-sum pipeline.  (The table satisfies the data-model
invariant that every trade value is non-negative.) -/
theorem growth_rate_spec (df : List TradeRecord) (year : Int)
    (quarter month flow : String) (hs_codes : List String)
    (hpos : ∀ r ∈ df, 0 ≤ r.Trade_Value_USD) :
    ((year - 1) ∉ df.map (·.Year) →
      growth_rate df year quarter month flow hs_codes = some 0)
    ∧ (total_value (filter_data df (year - 1) quarter month flow hs_codes) = 0 →
      growth_rate df year quarter month flow hs_codes = some 0)
    ∧ (total_value (filter_data df (year - 1) quarter month flow hs_codes) ≠ 0 →
      growth_rate df year quarter month flow hs_codes =
        some ((total_value (filter_data df year quarter month flow hs_codes)
            - total_value (filter_data df (year - 1) quarter month flow hs_codes))
          / total_value (filter_data df (year - 1) quarter month flow hs_codes) * 100)) := by
  refine ⟨?_, ?_, ?_⟩
  · intro habs
    simp [growth_rate, habs]
  · intro hzero
    by_cases hmem : (year - 1) ∈ df.map (·.Year)
    · simp [growth_rate, hmem, hzero]
    · simp [growth_rate, hmem]
  · intro hne
    have hprev_nonneg : 0 ≤ total_value (filter_data df (year - 1) quarter month flow hs_codes) := by
      apply total_value_nonneg
      intro r hr
      exact hpos r (mem_of_mem_filter_data df (year - 1) quarter month flow hs_codes r hr).1
    have hprev_pos : 0 < total_value (filter_data df (year - 1) quarter month flow hs_codes) :=
      lt_of_le_of_ne hprev_nonneg (Ne.symm hne)
    have hmem : (year - 1) ∈ df.map (·.Year) := by
      have hnonnil : filter_data df (year - 1) quarter month flow hs_codes ≠ [] := by
        intro hnil
        rw [total_value, hnil] at hne
        exact hne rfl
      rcases List.exists_mem_of_ne_nil _ hnonnil with ⟨r, hr⟩
      have := mem_of_mem_filter_data df (year - 1) quarter month flow hs_codes r hr
      rcases this with ⟨hrdf, hry⟩
      exact List.mem_map.mpr ⟨r, hrdf, hry⟩
    simp [growth_rate, hmem, pydiv, hne, hprev_pos]

/-- A one-row table: a 2024 Export of coffee to Uganda worth 100. -/
def sampleRow : TradeRecord where
  Year := 2024
  Month := 1
  Quarter := "Q1"
  Flow := "Export"
  Partner_Country := "Uganda"
  Partner_Continent := "Africa"
  Regional_Block := "EAC"
  HS_Code := "0901"
  HS_Description := "Coffee (not roasted)"
  Trade_Value_USD := 100
  Quantity_KG := 10
  Month_Name := "January"

/-- Closed instance of `growth_rate_spec`: on a one-row 2024 table queried
for 2023, the prior year 2022 is absent and the growth rate is 0. -/
theorem growth_rate_spec_witness :
    growth_rate [sampleRow] 2023 "All" "All" "All" ["All"] = some 0 :=
  (growth_rate_spec [sampleRow] 2023 "All" "All" "All" ["All"] (by decide)).1 (by decide)

/-- C3 (code defect): on a selection matching zero rows (year 2023 against a
table holding only 2024 data) the guarded computations — `growth_rate` and
`eac_share` — are exception-free and report 0, but the three KPI-card
"% of total" figures divide by the zero `total_trade` with no zero-check,
so the division-by-zero is NOT preempted there. -/
theorem kpi_percent_division_not_guarded :
    filter_data [sampleRow] 2023 "All" "All" "All" ["All"] = []
    ∧ kpi_percent_of_total
        (total_exports (filter_data [sampleRow] 2023 "All" "All" "All" ["All"]))
        (total_value (filter_data [sampleRow] 2023 "All" "All" "All" ["All"])) = none
    ∧ kpi_percent_of_total
        (total_imports (filter_data [sampleRow] 2023 "All" "All" "All" ["All"]))
        (total_value (filter_data [sampleRow] 2023 "All" "All" "All" ["All"])) = none
    ∧ kpi_percent_of_total
        (total_reexports (filter_data [sampleRow] 2023 "All" "All" "All" ["All"]))
        (total_value (filter_data [sampleRow] 2023 "All" "All" "All" ["All"])) = none
    ∧ growth_rate [sampleRow] 2023 "All" "All" "All" ["All"] = some 0
    ∧ eac_share (filter_data [sampleRow] 2023 "All" "All" "All" ["All"]) = some 0 := by
  refine ⟨by decide, by decide, by decide, by decide, by decide, by decide⟩

/-!
Embedding of the generator `create_rwanda_trade_data.py`: the fixed lookup
tables, the per-record construction, and the set of records the generation
loops can produce (randomness appears as parameters constrained to the
ranges the source samples from).
-/

/-- Generator line 13. -/
def years_list : List Int := [2021, 2022, 2023, 2024]

/-- Generator line 14: `range(1, 13)`. -/
def months_list : List Nat := List.range' 1 12

/-- Generator line 19. -/
def flows : List String := ["Export", "Import", "Re-export"]

/-- Generator lines 22-28. -/
def export_partners : List String :=
  ["Uganda", "Kenya", "Tanzania", "Burundi", "DRC",
   "United States", "United Kingdom", "Germany", "Belgium", "Netherlands",
   "China", "India", "UAE", "South Africa", "Switzerland",
   "France", "Italy", "Canada", "Japan", "Singapore",
   "Egypt", "Ghana", "Nigeria", "Zambia", "Zimbabwe"]

/-- Generator lines 30-36. -/
def import_partners : List String :=
  ["China", "India", "UAE", "Kenya", "Uganda",
   "Tanzania", "United States", "South Africa", "Germany", "Japan",
   "United Kingdom", "Belgium", "France", "Netherlands", "Italy",
   "Saudi Arabia", "Turkey", "Thailand", "Indonesia", "Brazil",
   "Egypt", "Morocco", "Nigeria", "Zambia", "Burundi"]

/-- Generator lines 39-49: the continent lookup, in literal order. -/
def continent_map : List (String × String) :=
  [("Uganda", "Africa"), ("Kenya", "Africa"), ("Tanzania", "Africa"),
   ("Burundi", "Africa"), ("DRC", "Africa"),
   ("South Africa", "Africa"), ("Egypt", "Africa"), ("Ghana", "Africa"),
   ("Nigeria", "Africa"),
   ("Zambia", "Africa"), ("Zimbabwe", "Africa"), ("Morocco", "Africa"),
   ("United States", "North America"), ("Canada", "North America"),
   ("China", "Asia"), ("India", "Asia"), ("UAE", "Asia"), ("Japan", "Asia"),
   ("Singapore", "Asia"),
   ("Saudi Arabia", "Asia"), ("Turkey", "Asia"), ("Thailand", "Asia"),
   ("Indonesia", "Asia"),
   ("United Kingdom", "Europe"), ("Germany", "Europe"), ("Belgium", "Europe"),
   ("Netherlands", "Europe"),
   ("Switzerland", "Europe"), ("France", "Europe"), ("Italy", "Europe"),
   ("Brazil", "South America")]

/-- Generator lines 52-63: the regional-block dict literal, in source order,
INCLUDING its duplicate keys (`Zambia`, `Zimbabwe` first bound to COMESA and
later to SADC; `Tanzania` first to EAC and later to SADC). -/
def regional_block_map : List (String × String) :=
  [("Uganda", "EAC"), ("Kenya", "EAC"), ("Tanzania", "EAC"), ("Burundi", "EAC"),
   ("DRC", "COMESA"), ("Egypt", "COMESA"), ("Zambia", "COMESA"), ("Zimbabwe", "COMESA"),
   ("South Africa", "SADC"), ("Zambia", "SADC"), ("Zimbabwe", "SADC"), ("Tanzania", "SADC"),
   ("Nigeria", "ECOWAS"), ("Ghana", "ECOWAS"),
   ("China", "Other"), ("India", "Other"), ("UAE", "Other"), ("United States", "Other"),
   ("United Kingdom", "Other"), ("Germany", "EU"), ("Belgium", "EU"), ("Netherlands", "EU"),
   ("France", "EU"), ("Italy", "EU"), ("Japan", "Other"), ("Singapore", "Other"),
   ("Saudi Arabia", "Other"), ("Turkey", "Other"), ("Thailand", "Other"),
   ("Indonesia", "Other"), ("Brazil", "Other"), ("Canada", "Other"),
   ("Switzerland", "Other"), ("Morocco", "Other")]

/-- Generator lines 68-84: the Export product catalog. -/
def hs_products_export : List (String × String) :=
  [("0901", "Coffee (not roasted)"), ("0902", "Tea"),
   ("2608", "Tin ores and concentrates"), ("2613", "Tantalum ores and concentrates"),
   ("7102", "Diamonds"), ("0709", "Vegetables (fresh/chilled)"),
   ("0804", "Dates, figs, pineapples, avocados"), ("6109", "T-shirts, singlets (knitted)"),
   ("6110", "Jerseys, pullovers (knitted)"), ("2710", "Petroleum oils (refined)"),
   ("8517", "Telephones/mobile phones"), ("2523", "Cement"),
   ("7326", "Iron/steel articles"), ("8471", "Data processing equipment"),
   ("0713", "Dried legumes")]

/-- Generator lines 86-102: the Import product catalog. -/
def hs_products_import : List (String × String) :=
  [("2710", "Petroleum oils"), ("8703", "Motor cars"),
   ("8704", "Motor vehicles (goods transport)"), ("1001", "Wheat"),
   ("1006", "Rice"), ("8517", "Telephones/mobile phones"),
   ("8471", "Computers/data processing"), ("3004", "Medicaments (packaged)"),
   ("8528", "Television receivers"), ("6203", "Suits, ensembles (men)"),
   ("6204", "Suits, ensembles (women)"), ("2523", "Cement"),
   ("7213", "Iron/steel bars"), ("8415", "Air conditioning machines"),
   ("8716", "Trailers and semi-trailers")]

/-- Generator lines 15-16: the month-to-quarter dict literal. -/
def quarters_map : List (Nat × String) :=
  [(1, "Q1"), (2, "Q1"), (3, "Q1"), (4, "Q2"), (5, "Q2"), (6, "Q2"),
   (7, "Q3"), (8, "Q3"), (9, "Q3"), (10, "Q4"), (11, "Q4"), (12, "Q4")]

/-- Generator lines 175-176: the month-name map. -/
def month_names : List (Nat × String) :=
  [(1, "January"), (2, "February"), (3, "March"), (4, "April"), (5, "May"),
   (6, "June"), (7, "July"), (8, "August"), (9, "September"), (10, "October"),
   (11, "November"), (12, "December")]

/-- A Python dict literal as an association list in source order: lookup
takes the LAST binding of a duplicated key (later literal entries overwrite
earlier ones), with a default for absent keys as in `dict.get(k, default)`. -/
def dictGet {κ : Type} [BEq κ] (entries : List (κ × String)) (k : κ)
    (dflt : String) : String :=
  ((entries.reverse.find? (fun e => e.1 == k)).map Prod.snd).getD dflt

/-- Generator lines 113-119: Export draws from the export partner list;
Import and Re-export both draw from the import partner list. -/
def partners_for (flow : String) : List String :=
  if flow = "Export" then export_partners else import_partners

/-- Generator lines 113-119: Export uses the Export catalog; Import and
Re-export both use the Import catalog. -/
def products_for (flow : String) : List (String × String) :=
  if flow = "Export" then hs_products_export else hs_products_import

/-- Generator lines 133-139. -/
def value_multiplier (flow : String) : ℚ :=
  if flow = "Export" then 1 else if flow = "Import" then 13 / 10 else 3 / 10

/-- Generator line 143: `1 + (year - 2021) * 0.08`. -/
def year_factor (year : Int) : ℚ := 1 + ((year : ℚ) - 2021) * (8 / 100)

/-- One record as appended by the generator (lines 127-169), with the random
draws (`base_value`, the seasonal factor, the per-kg unit price) passed in
as parameters. -/
def genRecord (year : Int) (month : Nat) (flow partner : String)
    (hs : String × String) (base_value seasonal_factor unit_price : ℚ) : TradeRecord :=
  let trade_value := base_value * value_multiplier flow * year_factor year * seasonal_factor
  let quantity := trade_value / unit_price
  { Year := year
    Month := month
    Quarter := dictGet quarters_map month ""
    Flow := flow
    Partner_Country := partner
    Partner_Continent := dictGet continent_map partner "Other"
    Regional_Block := dictGet regional_block_map partner "Other"
    HS_Code := hs.1
    HS_Description := hs.2
    Trade_Value_USD := round2 trade_value
    Quantity_KG := round2 quantity
    Month_Name := dictGet month_names month "" }

/-- A record the generation loops (lines 108-169) can produce: the loop
variables range over the fixed year / month / flow lists, the partner over
the first 20 entries of the flow's partner list, the product over the flow's
catalog; `base_value` comes from `uniform(50000, 5000000)`, overwritten for
Re-export by `uniform(10000, 500000)`; the seasonal factor
`1 + 0.1*sin(month*pi/6)` is abstracted by its bounds `[0.9, 1.1]`; the
per-kg unit price comes from `uniform(2, 20)`. -/
def GeneratedRecord (r : TradeRecord) : Prop :=
  ∃ year ∈ years_list, ∃ month ∈ months_list, ∃ flow ∈ flows,
    ∃ partner ∈ (partners_for flow).take 20, ∃ hs ∈ products_for flow,
      ∃ base_value seasonal_factor unit_price : ℚ,
        (if flow = "Re-export" then 10000 ≤ base_value ∧ base_value ≤ 500000
          else 50000 ≤ base_value ∧ base_value ≤ 5000000)
        ∧ 9 / 10 ≤ seasonal_factor ∧ seasonal_factor ≤ 11 / 10
        ∧ 2 ≤ unit_price ∧ unit_price ≤ 20
        ∧ r = genRecord year month flow partner hs base_value seasonal_factor unit_price

lemma round2_nonneg (q : ℚ) (h : 0 ≤ q) : 0 ≤ round2 q := by
  unfold round2
  have h100 : (0 : ℤ) ≤ round (q * 100) := by
    rw [round_eq]
    apply Int.floor_nonneg.mpr
    have : (0 : ℚ) ≤ q * 100 := by positivity
    linarith
  have : (0 : ℚ) ≤ ((round (q * 100) : ℤ) : ℚ) := by exact_mod_cast h100
  positivity

lemma dictGet_mem_or_default {κ : Type} [BEq κ] (entries : List (κ × String)) (k : κ)
    (dflt : String) :
    dictGet entries k dflt ∈ entries.map Prod.snd ∨ dictGet entries k dflt = dflt := by
  unfold dictGet
  cases hf : entries.reverse.find? (fun e => e.1 == k) with
  | none => right; rfl
  | some e =>
      left
      have he : e ∈ entries.reverse := List.mem_of_find?_eq_some hf
      rw [List.mem_reverse] at he
      simpa using List.mem_map_of_mem Prod.snd he

lemma mem_months_bounds (m : Nat) (hm : m ∈ months_list) : 1 ≤ m ∧ m ≤ 12 := by
  rw [months_list, List.mem_range'] at hm
  rcases hm with ⟨i, hi, rfl⟩
  omega

/-- C8: every record the generation routine can produce has its month in
`[1, 12]`, its quarter determined by the fixed month-to-quarter mapping
(months 1-3 give Q1, 4-6 give Q2, 7-9 give Q3, 10-12 give Q4), a
non-negative trade value, and continent and regional-block strings that are
non-empty and default to `"Other"` for partners absent from the lookups. -/
theorem generated_record_invariants (r : TradeRecord) (h : GeneratedRecord r) :
    (1 ≤ r.Month ∧ r.Month ≤ 12)
    ∧ (r.Month ≤ 3 → r.Quarter = "Q1")
    ∧ (4 ≤ r.Month → r.Month ≤ 6 → r.Quarter = "Q2")
    ∧ (7 ≤ r.Month → r.Month ≤ 9 → r.Quarter = "Q3")
    ∧ (10 ≤ r.Month → r.Quarter = "Q4")
    ∧ 0 ≤ r.Trade_Value_USD
    ∧ (r.Partner_Country ∉ continent_map.map Prod.fst → r.Partner_Continent = "Other")
    ∧ (r.Partner_Country ∉ regional_block_map.map Prod.fst → r.Regional_Block = "Other")
    ∧ r.Partner_Continent ≠ "" ∧ r.Regional_Block ≠ "" := by
  obtain ⟨year, hy, month, hm, flow, hf, partner, hp, hs, hhs,
    bv, sf, up, hbv, hsf1, hsf2, hup1, hup2, hr⟩ := h
  subst hr
  have hmb : 1 ≤ month ∧ month ≤ 12 := mem_months_bounds month hm
  refine ⟨hmb, ?_, ?_, ?_, ?_, ?_, ?_, ?_, ?_, ?_⟩
  · intro h3
    obtain ⟨h1, _⟩ := hmb
    have h3' : month ≤ 3 := h3
    show dictGet quarters_map month "" = "Q1"
    interval_cases month <;> decide
  · intro h4 h6
    have h4' : 4 ≤ month := h4
    have h6' : month ≤ 6 := h6
    show dictGet quarters_map month "" = "Q2"
    interval_cases month <;> decide
  · intro h7 h9
    have h7' : 7 ≤ month := h7
    have h9' : month ≤ 9 := h9
    show dictGet quarters_map month "" = "Q3"
    interval_cases month <;> decide
  · intro h10
    obtain ⟨_, h12⟩ := hmb
    have h10' : 10 ≤ month := h10
    show dictGet quarters_map month "" = "Q4"
    interval_cases month <;> decide
  · show 0 ≤ round2 (bv * value_multiplier flow * year_factor year * sf)
    apply round2_nonneg
    have hbv' : (0 : ℚ) < bv := by
      by_cases hre : flow = "Re-export" <;> simp [hre] at hbv <;> linarith [hbv.1]
    have hmul : (0 : ℚ) < value_multiplier flow := by
      unfold value_multiplier
      split
      · norm_num
      · split <;> norm_num
    have hyf : (0 : ℚ) < year_factor year := by
      fin_cases hy <;> norm_num [year_factor]
    have hsf : (0 : ℚ) < sf := by linarith
    positivity
  · intro habs
    show dictGet continent_map partner "Other" = "Other"
    unfold dictGet
    rw [List.find?_eq_none.mpr]
    · rfl
    · intro e he
      rw [List.mem_reverse] at he
      simp only [beq_iff_eq]
      intro hek
      exact habs (List.mem_map.mpr ⟨e, he, hek⟩)
  · intro habs
    show dictGet regional_block_map partner "Other" = "Other"
    unfold dictGet
    rw [List.find?_eq_none.mpr]
    · rfl
    · intro e he
      rw [List.mem_reverse] at he
      simp only [beq_iff_eq]
      intro hek
      exact habs (List.mem_map.mpr ⟨e, he, hek⟩)
  · show dictGet continent_map partner "Other" ≠ ""
    rcases dictGet_mem_or_default continent_map partner "Other" with hmem | hd
    · intro hempty
      rw [hempty] at hmem
      revert hmem
      decide
    · rw [hd]; decide
  · show dictGet regional_block_map partner "Other" ≠ ""
    rcases dictGet_mem_or_default regional_block_map partner "Other" with hmem | hd
    · intro hempty
      rw [hempty] at hmem
      revert hmem
      decide
    · rw [hd]; decide

/-- A concrete record the generator can produce: a May 2022 coffee export to
Uganda. -/
def genSample : TradeRecord :=
  genRecord 2022 5 "Export" "Uganda" ("0901", "Coffee (not roasted)") 100000 1 10

lemma genSample_generated : GeneratedRecord genSample :=
  ⟨2022, by decide, 5, by decide, "Export", by decide, "Uganda", by decide,
   ("0901", "Coffee (not roasted)"), by decide, 100000, 1, 10, by norm_num,
   by norm_num, by norm_num, by norm_num, by norm_num, rfl⟩

/-- Closed instance of `generated_record_invariants` at the concrete
generated record `genSample`. -/
theorem generated_record_invariants_witness :
    GeneratedRecord genSample
    ∧ (1 ≤ genSample.Month ∧ genSample.Month ≤ 12)
    ∧ 0 ≤ genSample.Trade_Value_USD :=
  ⟨genSample_generated,
   (generated_record_invariants genSample genSample_generated).1,
   (generated_record_invariants genSample genSample_generated).2.2.2.2.2.1⟩

/-- C9: the regional-block lookup resolves its duplicate literal keys
last-write-wins, so every generated record for Zambia or Zimbabwe carries
`SADC` (never the earlier `COMESA` binding) and every record for Tanzania
carries `SADC` (never the earlier `EAC` binding); the block is a function of
the partner alone, so each partner maps to exactly one block. -/
theorem regional_block_last_write_wins (year : Int) (month : Nat) (flow : String)
    (hs : String × String) (bv sf up : ℚ) :
    (genRecord year month flow "Zambia" hs bv sf up).Regional_Block = "SADC"
    ∧ (genRecord year month flow "Zimbabwe" hs bv sf up).Regional_Block = "SADC"
    ∧ (genRecord year month flow "Tanzania" hs bv sf up).Regional_Block = "SADC"
    ∧ (genRecord year month flow "Zambia" hs bv sf up).Regional_Block ≠ "COMESA"
    ∧ (genRecord year month flow "Zimbabwe" hs bv sf up).Regional_Block ≠ "COMESA"
    ∧ (genRecord year month flow "Tanzania" hs bv sf up).Regional_Block ≠ "EAC"
    ∧ (∀ partner : String, ∀ y2 : Int, ∀ m2 : Nat, ∀ f2 : String,
        ∀ hs2 : String × String, ∀ bv2 sf2 up2 : ℚ,
        (genRecord year month flow partner hs bv sf up).Regional_Block
          = (genRecord y2 m2 f2 partner hs2 bv2 sf2 up2).Regional_Block) := by
  refine ⟨?_, ?_, ?_, ?_, ?_, ?_, ?_⟩
  · show dictGet regional_block_map "Zambia" "Other" = "SADC"
    decide
  · show dictGet regional_block_map "Zimbabwe" "Other" = "SADC"
    decide
  · show dictGet regional_block_map "Tanzania" "Other" = "SADC"
    decide
  · show dictGet regional_block_map "Zambia" "Other" ≠ "COMESA"
    decide
  · show dictGet regional_block_map "Zimbabwe" "Other" ≠ "COMESA"
    decide
  · show dictGet regional_block_map "Tanzania" "Other" ≠ "EAC"
    decide
  · intro partner y2 m2 f2 hs2 bv2 sf2 up2
    rfl

/-- C10: a generated Re-export record draws its partner from the first 20
entries of the IMPORT partner list and its product pair from the IMPORT
catalog — Re-export has no lists of its own. -/
theorem reexport_uses_import_lists (r : TradeRecord) (h : GeneratedRecord r)
    (hflow : r.Flow = "Re-export") :
    r.Partner_Country ∈ import_partners.take 20
    ∧ (r.HS_Code, r.HS_Description) ∈ hs_products_import := by
  obtain ⟨year, hy, month, hm, flow, hf, partner, hp, hs, hhs,
    bv, sf, up, hbv, _, _, _, _, hr⟩ := h
  subst hr
  have hfl : flow = "Re-export" := hflow
  have hne : ¬flow = "Export" := by rw [hfl]; decide
  simp only [partners_for, if_neg hne] at hp
  simp only [products_for, if_neg hne] at hhs
  exact ⟨hp, by simpa using hhs⟩

/-- A concrete Re-export record the generator can produce. -/
def reexportSample : TradeRecord :=
  genRecord 2021 1 "Re-export" "China" ("2710", "Petroleum oils") 20000 1 10

lemma reexportSample_generated : GeneratedRecord reexportSample :=
  ⟨2021, by decide, 1, by decide, "Re-export", by decide, "China", by decide,
   ("2710", "Petroleum oils"), by decide, 20000, 1, 10, by norm_num,
   by norm_num, by norm_num, by norm_num, by norm_num, rfl⟩

/-- Closed instance of `reexport_uses_import_lists` at the concrete
Re-export record `reexportSample`. -/
theorem reexport_uses_import_lists_witness :
    reexportSample.Partner_Country ∈ import_partners.take 20
    ∧ (reexportSample.HS_Code, reexportSample.HS_Description) ∈ hs_products_import :=
  reexport_uses_import_lists reexportSample reexportSample_generated rfl

/-- Outcome of running the data-loading layer: either the table is loaded,
or presentation execution was halted by `st.error` followed by `st.stop`, or
an uncaught exception crashed the app. -/
inductive LoadOutcome where
  | loaded : List TradeRecord → LoadOutcome
  | halted : String → LoadOutcome
  | crashed : String → LoadOutcome
deriving DecidableEq, Repr

/-- `pd.read_csv('rwanda_trade_data.csv')`: the file system holds
`some table` when the file exists; reading an absent file raises
`FileNotFoundError`. -/
def read_csv (fs : Option (List TradeRecord)) : Except String (List TradeRecord) :=
  match fs with
  | some t => Except.ok t
  | none => Except.error "FileNotFoundError"

/-- `load_data()` (dashboard lines 99-108): try the read; on
`FileNotFoundError` show the blocking error message and stop; any other
exception would propagate and crash. -/
def load_data (fs : Option (List TradeRecord)) : LoadOutcome :=
  match read_csv fs with
  | Except.ok df => LoadOutcome.loaded df
  | Except.error e =>
      if e = "FileNotFoundError" then
        LoadOutcome.halted "⚠️ Data file not found! Please run create_rwanda_trade_data.py first"
      else LoadOutcome.crashed e

/-- C7: with the data file absent, loading halts with the blocking
user-facing message, and no input ever makes `load_data` crash with an
uncaught I/O error. -/
theorem load_data_missing_file_halts :
    load_data none = LoadOutcome.halted
      "⚠️ Data file not found! Please run create_rwanda_trade_data.py first"
    ∧ (∀ fs : Option (List TradeRecord), ∀ e : String,
        load_data fs ≠ LoadOutcome.crashed e) := by
  refine ⟨rfl, ?_⟩
  intro fs e
  cases fs <;> simp [load_data, read_csv]

/-- Closed instance of `aggregate_groupby_spec`: the key `Uganda`, present in
a one-row subset, appears among the aggregated group keys. -/
theorem aggregate_groupby_spec_witness :
    "Uganda" ∈ (aggregate [sampleRow] (·.Partner_Country) (·.Trade_Value_USD)).map Prod.fst :=
  ((aggregate_groupby_spec [sampleRow] (·.Partner_Country) (·.Trade_Value_USD)).2.1
    "Uganda").mpr (by decide)

/-- Closed instance of `top_n_ranked_spec`: the empty aggregated mapping
yields the empty ranked sequence. -/
theorem top_n_ranked_spec_witness : top_n_ranked [] 3 = [] :=
  (top_n_ranked_spec [] 3).2.2.2.2.2 rfl
